import Mathlib

/-!
# Verification of the crypto-strats repository

A shallow embedding of the repository's three source files —
`collector.py` (Binance Vision klines collector), `strategies.py`
(backtrader strategy classes) and `backtest.py` (CLI runner) — together
with proofs about the embedded definitions.

Prices, indicator values and timestamps are modelled as exact rationals
(`ℚ`); Python `None` becomes `Option`; a pandas Series becomes a `List`.
Each definition carries a comment pointing at the source lines it embeds.
-/

/-! ## Data model shared by the strategies (strategies.py) -/

/-- One OHLC bar of a backtrader data series: the values a strategy reads
on the current bar (`data.open[0]`, `data.high[0]`, `data.low[0]`,
`data.close[0]`). -/
structure Bar where
  op : ℚ
  high : ℚ
  low : ℚ
  close : ℚ
deriving DecidableEq

/-- Which branch of a strategy's `next` produced the submitted order.
All exit branches in the source submit the same `self.close(...)` call;
this tag records which `if`/`elif` branch of the source reached it, so
that evaluation order of the checks is observable in the embedding. -/
inductive ExitReason where
  | stopLoss
  | takeProfit
  | signal
deriving DecidableEq

/-- The order (if any) submitted by one call of a strategy's `next`.
`dataIdx` is the index of the data feed the order is placed against
(`self.datas[dataIdx]`). -/
inductive OrderAction where
  | none
  | buy (dataIdx : ℕ)
  | close (dataIdx : ℕ) (reason : ExitReason)
deriving DecidableEq

/-- The mutable per-strategy state read by `next`:
`order` is `self.order is not None` (an outstanding order is pending),
`position` is the truthiness of `self.position`, and `entry_price`
is `self.entry_price` (set by `notify_order` on a completed buy). -/
structure StratState where
  order : Bool
  position : Bool
  entry_price : Option ℚ
deriving DecidableEq

/-! ## MAStrategy (strategies.py lines 14-75) -/

/-- Parameters of `MAStrategy` (strategies.py lines 24-30).  `fast` and
`slow` feed the SMA indicators and do not appear in `next` beyond the
`crossover` value computed from them. -/
structure MAParams where
  fast : ℕ
  slow : ℕ
  takeprofit_pct : Option ℚ
  stoploss_pct : Option ℚ
  target_data_index : ℕ

/-- `sl is not None and low <= self.entry_price * (1 - sl)`
(strategies.py line 68). -/
def slHit (sl? : Option ℚ) (entry low : ℚ) : Bool :=
  match sl? with
  | some sl => decide (low ≤ entry * (1 - sl))
  | none => false

/-- `tp is not None and high >= self.entry_price * (1 + tp)`
(strategies.py line 71). -/
def tpHit (tp? : Option ℚ) (entry high : ℚ) : Bool :=
  match tp? with
  | some tp => decide (high ≥ entry * (1 + tp))
  | none => false

/-- `MAStrategy.next` (strategies.py lines 53-75).  `data` is
`self.datas[target_data_index]`'s current bar and `crossover` the
current value of the `CrossOver(fast_ma, slow_ma)` indicator.
The source's guard `if tp is not None or sl is not None` only avoids
reading `high`/`low`; when both are `None` neither inner `if` can fire,
which the `slHit`/`tpHit` encoding reproduces. -/
def MAStrategy_next (p : MAParams) (st : StratState) (data : Bar)
    (crossover : ℚ) : OrderAction :=
  if st.order then OrderAction.none
  else if st.position = false then
    if crossover > 0 then OrderAction.buy p.target_data_index else OrderAction.none
  else
    match st.entry_price with
    | some entry =>
      if slHit p.stoploss_pct entry data.low then
        OrderAction.close p.target_data_index ExitReason.stopLoss
      else if tpHit p.takeprofit_pct entry data.high then
        OrderAction.close p.target_data_index ExitReason.takeProfit
      else if crossover < 0 then
        OrderAction.close p.target_data_index ExitReason.signal
      else OrderAction.none
    | none =>
      if crossover < 0 then
        OrderAction.close p.target_data_index ExitReason.signal
      else OrderAction.none

/-! ## OversoldBounceStrategy (strategies.py lines 81-152) -/

/-- Parameters of `OversoldBounceStrategy` (strategies.py lines 93-101).
`rsi_period` feeds the RSI indicator only. -/
structure OBParams where
  rsi_period : ℕ
  rsi_oversold : ℚ
  rsi_exit : ℚ
  trend_ma : ℕ
  takeprofit_pct : ℚ
  stoploss_pct : ℚ
  target_data_index : ℕ

/-- `OversoldBounceStrategy.next` (strategies.py lines 124-152).
`rsi`, `bbBot` and `trendSma` are the current values of the indicators
built in `__init__` on `self.datas[target_data_index].close`. -/
def OversoldBounce_next (p : OBParams) (st : StratState) (data : Bar)
    (rsi bbBot trendSma : ℚ) : OrderAction :=
  if st.order then OrderAction.none
  else if st.position = false then
    let price := data.close
    let in_uptrend := price > trendSma
    let oversold := rsi < p.rsi_oversold
    let below_lower_bb := price ≤ bbBot
    if in_uptrend ∧ oversold ∧ below_lower_bb then
      OrderAction.buy p.target_data_index
    else OrderAction.none
  else
    match st.entry_price with
    | none => OrderAction.none
    | some entry =>
      let tp_price := entry * (1 + p.takeprofit_pct)
      let sl_price := entry * (1 - p.stoploss_pct)
      if data.low ≤ sl_price then
        OrderAction.close p.target_data_index ExitReason.stopLoss
      else if data.high ≥ tp_price then
        OrderAction.close p.target_data_index ExitReason.takeProfit
      else if rsi > p.rsi_exit then
        OrderAction.close p.target_data_index ExitReason.signal
      else OrderAction.none

/-! ## OversoldBounceMTFStrategy (strategies.py lines 160-219) -/

/-- Parameters of `OversoldBounceMTFStrategy` (strategies.py
lines 166-173): same as `OBParams` without `target_data_index`. -/
structure MTFParams where
  rsi_period : ℕ
  rsi_oversold : ℚ
  rsi_exit : ℚ
  trend_ma : ℕ
  takeprofit_pct : ℚ
  stoploss_pct : ℚ

/-- `OversoldBounceMTFStrategy.next` (strategies.py lines 192-219).
`granular` is the current bar of `self.datas[0]`, `sigBar` the current
bar of `self.datas[1]`; `rsi`, `bbBot`, `trendSma` are the indicators
built in `__init__` on `self.datas[1].close`; `len1` is
`len(self.datas[1])`. -/
def OversoldBounceMTF_next (p : MTFParams) (st : StratState)
    (granular sigBar : Bar) (rsi bbBot trendSma : ℚ) (len1 : ℕ) : OrderAction :=
  if st.order then OrderAction.none
  else if st.position = false then
    if len1 < p.trend_ma then OrderAction.none
    else
      let price_signal := sigBar.close
      let in_uptrend := price_signal > trendSma
      let oversold := rsi < p.rsi_oversold
      let below_lower_bb := price_signal ≤ bbBot
      if in_uptrend ∧ oversold ∧ below_lower_bb then OrderAction.buy 0
      else OrderAction.none
  else
    match st.entry_price with
    | none => OrderAction.none
    | some entry =>
      let tp_price := entry * (1 + p.takeprofit_pct)
      let sl_price := entry * (1 - p.stoploss_pct)
      if granular.low ≤ sl_price then OrderAction.close 0 ExitReason.stopLoss
      else if granular.high ≥ tp_price then OrderAction.close 0 ExitReason.takeProfit
      else if rsi > p.rsi_exit then OrderAction.close 0 ExitReason.signal
      else OrderAction.none

/-! ## collector.py: open_time normalisation (lines 42-61) -/

/-- Pandas comparison `v > c` on a post-`to_numeric` value: `none` is
NaN, and NaN compares `False` in pandas. -/
def optGt (v : Option ℚ) (c : ℚ) : Bool :=
  match v with
  | some x => decide (x > c)
  | none => false

/-- `us_mask = s > 1e15` (collector.py line 55), value-wise. -/
def us_mask (v : Option ℚ) : Bool := optGt v (10 ^ 15)

/-- `ms_mask = (s > 1e12) & ~us_mask` (collector.py line 56). -/
def ms_mask (v : Option ℚ) : Bool := optGt v (10 ^ 12) && !us_mask v

/-- `s_mask = ~us_mask & ~ms_mask` (collector.py line 57). -/
def s_mask (v : Option ℚ) : Bool := !us_mask v && !ms_mask v

/-- Effect on one value of the two masked assignments
`s.loc[ms_mask] *= 1_000` and `s.loc[s_mask] *= 1_000_000`
(collector.py lines 59-60): a value under `ms_mask` is multiplied by
1 000, a value under `s_mask` by 1 000 000, a value under `us_mask` is
left as is.  NaN (`none`) propagates through the multiplications. -/
def _normalize_open_time_val (v : Option ℚ) : Option ℚ :=
  if ms_mask v then v.map (fun x => x * 1000)
  else if s_mask v then v.map (fun x => x * 1000000)
  else v

/-- `_normalize_open_time` (collector.py lines 42-61) on a series whose
values are already the result of `pd.to_numeric(series, errors="coerce")`
(`none` = NaN).  The masked assignments act independently per value. -/
def _normalize_open_time (s : List (Option ℚ)) : List (Option ℚ) :=
  s.map _normalize_open_time_val

/-! ## collector.py: load (lines 105-139), open_time column -/

/-- `drop_duplicates(subset=["open_time"])` (collector.py line 126)
restricted to the `open_time` column: keep the first occurrence of each
value (`seen` accumulates the values already kept). -/
def dedupSeen (seen : List ℚ) : List ℚ → List ℚ
  | [] => []
  | x :: xs =>
    if x ∈ seen then dedupSeen seen xs else x :: dedupSeen (x :: seen) xs

/-- `drop_duplicates(subset=["open_time"])`, keep="first" default. -/
def drop_duplicates (l : List ℚ) : List ℚ := dedupSeen [] l

/-- `sort_values("open_time")` (collector.py line 127): ascending sort
of the column. -/
def sort_values (l : List ℚ) : List ℚ := List.insertionSort (· ≤ ·) l

/-- The `open_time` column of `load` (collector.py lines 105-139):
concatenate the per-file columns (`pd.concat`), drop duplicates keeping
the first, sort ascending — and only then (line 137) normalise the
column to microseconds.  Klines CSVs store `open_time` as numerals, so
every value reaches `pd.to_numeric` as `some _`.  The other columns
play no part in these steps (dedup and sort key on `open_time` only). -/
def load_open_time (files : List (List ℚ)) : List (Option ℚ) :=
  _normalize_open_time ((sort_values (drop_duplicates files.flatten)).map some)

/-! ## collector.py: collect (lines 64-102) -/

/-- Outcome of one day of `collect`'s loop. -/
inductive DayOutcome where
  | cachedSkip   -- `os.path.isfile(csv)` was true: nothing fetched
  | fetched      -- download and extraction succeeded
  | warned       -- an exception was caught: `[warn]` printed, day skipped
deriving DecidableEq

/-- `collect`'s day loop (collector.py lines 82-102), one entry per day.
Days are numbered by ordinal; the loop runs `current` up to (excluding)
`endDay`, advancing by one day each iteration.  `cached d` models
`os.path.isfile(csv)` for day `d`; `fetchOk d` tells whether the
download-and-extract of day `d` raises.  The `try/except` catches any
per-day failure, prints the warning, and control always falls through
to `current += timedelta(days=1)`. -/
def collect_loop (cached fetchOk : ℕ → Bool) (current endDay : ℕ) :
    List (ℕ × DayOutcome) :=
  if current < endDay then
    (current,
      if cached current then DayOutcome.cachedSkip
      else if fetchOk current then DayOutcome.fetched
      else DayOutcome.warned)
      :: collect_loop cached fetchOk (current + 1) endDay
  else []
termination_by endDay - current
decreasing_by omega

/-! ## backtest.py: commission (lines 41-58) -/

/-- Parameters of `BinanceFuturesCommInfo` (backtest.py lines 42-49)
read by `_getcommission`. -/
structure CommissionConfig where
  commission_maker : ℚ
  commission_taker : ℚ
  commission_type : String

/-- `BinanceFuturesCommInfo._getcommission` (backtest.py lines 51-58).
The `pseudoexec` argument is unused by the body and omitted. -/
def _getcommission (p : CommissionConfig) (size price : ℚ) : ℚ :=
  let rate :=
    if p.commission_type = "maker" then p.commission_maker
    else if p.commission_type = "taker" then p.commission_taker
    else (p.commission_maker + p.commission_taker) / 2
  |size| * price * rate

/-! ## backtest.py: win rate (line 356) -/

/-- `win_rate = (won / total * 100) if total > 0 else 0.0`
(backtest.py line 356); `won` and `total` are the trade counts from the
TradeAnalyzer. -/
def win_rate (won total : ℕ) : ℚ :=
  if total > 0 then (won : ℚ) / (total : ℚ) * 100 else 0

/-! ## backtest.py: timeframe validation order in main (lines 90-94, 199-325) -/

/-- The keys of `_TF_MAP` (backtest.py lines 64-74): the supported
Binance-style interval labels. -/
def TF_MAP_keys : List String :=
  ["1m", "3m", "5m", "15m", "30m", "1h", "2h", "4h", "1d"]

/-- `_parse_tf` (backtest.py lines 90-94) succeeds iff the label is a
`_TF_MAP` key; on any other label it calls `sys.exit` with the
`Unknown timeframe` diagnostic. -/
def parse_tf_ok (label : String) : Bool := TF_MAP_keys.contains label

/-- The data-access and interval-validation steps of `main`
(backtest.py lines 199-325), in program order. -/
inductive MainStep where
  | collectStep (interval : String)   -- `collect(...)`, lines 209 / 212
  | loadStep (interval : String)      -- `load_bt_dataframe(...)`, lines 223 / 235
  | parseTfStep (label : String)      -- `_parse_tf(...)`, lines 232 / 314
deriving DecidableEq

/-- Whether a step accesses data (per-day fetch attempts, or the load of
cached CSV files). -/
def isDataAccess : MainStep → Bool
  | MainStep.collectStep _ => true
  | MainStep.loadStep _ => true
  | MainStep.parseTfStep _ => false

/-- The sequence of those steps as `main` lays them out for a given
`--signal-tf` and optional `--granular-tf`.  MTF mode (granular set):
`collect` granular (line 209), `load_bt_dataframe` granular (line 223),
`_parse_tf` signal (line 232, resample), `_parse_tf` signal (line 314,
Sharpe analyzer).  Single-TF mode: `collect` signal (line 212),
`load_bt_dataframe` signal (line 235), `_parse_tf` signal (line 314). -/
def main_steps (signal_tf : String) (granular_tf : Option String) : List MainStep :=
  match granular_tf with
  | some g =>
    [MainStep.collectStep g, MainStep.loadStep g,
     MainStep.parseTfStep signal_tf, MainStep.parseTfStep signal_tf]
  | none =>
    [MainStep.collectStep signal_tf, MainStep.loadStep signal_tf,
     MainStep.parseTfStep signal_tf]

/-- A step that terminates the run: `_parse_tf` on an unsupported label
calls `sys.exit`. -/
def step_fails : MainStep → Bool
  | MainStep.parseTfStep label => !parse_tf_ok label
  | _ => false

/-- Truncate a step list at the first failing step (inclusive): steps
after a `sys.exit` never run. -/
def run_prefix : List MainStep → List MainStep
  | [] => []
  | s :: rest => if step_fails s then [s] else s :: run_prefix rest

/-- The steps `main` actually executes before terminating (collect and
load are modelled as succeeding; only the interval check exits). -/
def executed_steps (signal_tf : String) (granular_tf : Option String) :
    List MainStep :=
  run_prefix (main_steps signal_tf granular_tf)

/-- The property claimed for one configuration: with an unsupported
signal label, the run executes no data-access step (it is to fail fast
before any fetch or load). -/
def failsFastOnUnknownTf (signal_tf : String) (granular_tf : Option String) : Prop :=
  parse_tf_ok signal_tf = false →
    (executed_steps signal_tf granular_tf).all (fun s => !isDataAccess s) = true

/-! ## Claim theorems -/

/-- C4: the reported win rate equals `won / total * 100` when the total
number of closed trades is positive, and is exactly 0 when `total = 0` —
the division is guarded, so the zero-trades case never divides by
zero. -/
theorem C4_win_rate_guarded (won total : ℕ) :
    (0 < total → win_rate won total = (won : ℚ) / (total : ℚ) * 100)
    ∧ win_rate won 0 = 0 := by
  constructor
  · intro h
    simp [win_rate, h]
  · simp [win_rate]

/-- Witness for C4 at `won = 3`, `total = 4` and `won = 7`, `total = 0`. -/
theorem C4_win_rate_guarded_witness :
    win_rate 3 4 = 75 ∧ win_rate 7 0 = 0 := by
  refine ⟨?_, (C4_win_rate_guarded 7 0).2⟩
  rw [(C4_win_rate_guarded 3 4).1 (by norm_num)]
  norm_num

/-- C5: the commission charged is `|size| * price * rate`, where `rate`
is the maker rate for mode "maker", the taker rate for mode "taker" and
the arithmetic mean `(maker + taker) / 2` for mode "blended"; in
particular maker 0.0002 and taker 0.0005 in blended mode give the
effective rate 0.00035. -/
theorem C5_commission_rate_selection (size price maker taker : ℚ) :
    _getcommission ⟨maker, taker, "maker"⟩ size price = |size| * price * maker
    ∧ _getcommission ⟨maker, taker, "taker"⟩ size price = |size| * price * taker
    ∧ _getcommission ⟨maker, taker, "blended"⟩ size price
        = |size| * price * ((maker + taker) / 2)
    ∧ _getcommission ⟨2 / 10000, 5 / 10000, "blended"⟩ size price
        = |size| * price * (35 / 100000) := by
  refine ⟨by simp [_getcommission], by simp [_getcommission], by simp [_getcommission],
    by simp [_getcommission]; norm_num⟩

/-- C7: while a strategy has an outstanding (pending) order, its `next`
submits no new order — any entry or exit signal on such a bar is
ignored, so at most one order is outstanding per strategy at a time. -/
theorem C7_pending_order_blocks_new_orders (st : StratState)
    (hord : st.order = true) :
    (∀ (p : MAParams) (b : Bar) (crossover : ℚ),
        MAStrategy_next p st b crossover = OrderAction.none)
    ∧ (∀ (p : OBParams) (b : Bar) (rsi bbBot trendSma : ℚ),
        OversoldBounce_next p st b rsi bbBot trendSma = OrderAction.none)
    ∧ (∀ (p : MTFParams) (g sb : Bar) (rsi bbBot trendSma : ℚ) (len1 : ℕ),
        OversoldBounceMTF_next p st g sb rsi bbBot trendSma len1 = OrderAction.none) := by
  refine ⟨fun p b c => ?_, fun p b r bb t => ?_, fun p g sb r bb t l => ?_⟩ <;>
    simp [MAStrategy_next, OversoldBounce_next, OversoldBounceMTF_next, hord]

/-- Witness for C7: a pending order suppresses all three strategies'
decisions on a bar that would otherwise trigger a signal. -/
theorem C7_pending_order_blocks_new_orders_witness :
    MAStrategy_next ⟨10, 30, none, none, 0⟩ ⟨true, false, none⟩ ⟨1, 1, 1, 1⟩ 1
      = OrderAction.none
    ∧ OversoldBounce_next ⟨14, 28, 55, 50, 15/1000, 6/1000, 0⟩ ⟨true, false, none⟩
        ⟨1, 1, 1, 1⟩ 10 2 0 = OrderAction.none
    ∧ OversoldBounceMTF_next ⟨14, 28, 55, 50, 15/1000, 6/1000⟩ ⟨true, false, none⟩
        ⟨1, 1, 1, 1⟩ ⟨1, 1, 1, 1⟩ 10 2 0 100 = OrderAction.none :=
  ⟨(C7_pending_order_blocks_new_orders ⟨true, false, none⟩ rfl).1
      ⟨10, 30, none, none, 0⟩ ⟨1, 1, 1, 1⟩ 1,
   (C7_pending_order_blocks_new_orders ⟨true, false, none⟩ rfl).2.1
      ⟨14, 28, 55, 50, 15/1000, 6/1000, 0⟩ ⟨1, 1, 1, 1⟩ 10 2 0,
   (C7_pending_order_blocks_new_orders ⟨true, false, none⟩ rfl).2.2
      ⟨14, 28, 55, 50, 15/1000, 6/1000⟩ ⟨1, 1, 1, 1⟩ ⟨1, 1, 1, 1⟩ 10 2 0 100⟩

/-- C10: in OversoldBounceStrategy and OversoldBounceMTFStrategy, while
the strategy holds a position but the buy fill has not yet set
`entry_price` (it is still `None`), `next` submits no close order of
any kind — neither stop-loss, take-profit nor the RSI signal exit is
evaluated on such a bar. -/
theorem C10_no_exit_before_fill_notification (st : StratState)
    (hord : st.order = false) (hpos : st.position = true)
    (hentry : st.entry_price = none) :
    (∀ (p : OBParams) (b : Bar) (rsi bbBot trendSma : ℚ),
        OversoldBounce_next p st b rsi bbBot trendSma = OrderAction.none)
    ∧ (∀ (p : MTFParams) (g sb : Bar) (rsi bbBot trendSma : ℚ) (len1 : ℕ),
        OversoldBounceMTF_next p st g sb rsi bbBot trendSma len1 = OrderAction.none) := by
  refine ⟨fun p b r bb t => ?_, fun p g sb r bb t l => ?_⟩ <;>
    simp [OversoldBounce_next, OversoldBounceMTF_next, hord, hpos, hentry]

/-- Witness for C10: in-position state with `entry_price = none` on a
bar whose low/high would breach any SL/TP level yields no order. -/
theorem C10_no_exit_before_fill_notification_witness :
    OversoldBounce_next ⟨14, 28, 55, 50, 15/1000, 6/1000, 0⟩ ⟨false, true, none⟩
      ⟨100, 200, 1, 100⟩ 90 200 0 = OrderAction.none
    ∧ OversoldBounceMTF_next ⟨14, 28, 55, 50, 15/1000, 6/1000⟩ ⟨false, true, none⟩
      ⟨100, 200, 1, 100⟩ ⟨100, 200, 1, 100⟩ 90 200 0 100 = OrderAction.none :=
  ⟨(C10_no_exit_before_fill_notification ⟨false, true, none⟩ rfl rfl rfl).1
      ⟨14, 28, 55, 50, 15/1000, 6/1000, 0⟩ ⟨100, 200, 1, 100⟩ 90 200 0,
   (C10_no_exit_before_fill_notification ⟨false, true, none⟩ rfl rfl rfl).2
      ⟨14, 28, 55, 50, 15/1000, 6/1000⟩ ⟨100, 200, 1, 100⟩ ⟨100, 200, 1, 100⟩ 90 200 0 100⟩

/-- C1: for every strategy holding a position with a known entry price
and both `takeprofit_pct` and `stoploss_pct` set, if on one bar both the
stop-loss condition `low ≤ entry * (1 - sl)` and the take-profit
condition `high ≥ entry * (1 + tp)` hold, the submitted close order is
the stop-loss exit: the stop-loss check is evaluated before the
take-profit check. -/
theorem C1_stoploss_checked_before_takeprofit
    (st : StratState) (b sigBar : Bar)
    (entry tp sl crossover rsi bbBot trendSma : ℚ) (len1 : ℕ)
    (hord : st.order = false) (hpos : st.position = true)
    (hentry : st.entry_price = some entry)
    (hlow : b.low ≤ entry * (1 - sl)) (_hhigh : b.high ≥ entry * (1 + tp)) :
    (∀ p : MAParams, p.stoploss_pct = some sl → p.takeprofit_pct = some tp →
        MAStrategy_next p st b crossover
          = OrderAction.close p.target_data_index ExitReason.stopLoss)
    ∧ (∀ p : OBParams, p.stoploss_pct = sl → p.takeprofit_pct = tp →
        OversoldBounce_next p st b rsi bbBot trendSma
          = OrderAction.close p.target_data_index ExitReason.stopLoss)
    ∧ (∀ p : MTFParams, p.stoploss_pct = sl → p.takeprofit_pct = tp →
        OversoldBounceMTF_next p st b sigBar rsi bbBot trendSma len1
          = OrderAction.close 0 ExitReason.stopLoss) := by
  refine ⟨fun p hsl htp => ?_, fun p hsl htp => ?_, fun p hsl htp => ?_⟩ <;>
    simp [MAStrategy_next, OversoldBounce_next, OversoldBounceMTF_next,
      slHit, hord, hpos, hentry, hsl, htp, hlow]

/-- Witness for C1: entry 100, sl 0.6% (SL level 99.4), tp 1.5% (TP
level 101.5), bar low 99 and high 102 breach both; all three strategies
submit the stop-loss close. -/
theorem C1_stoploss_checked_before_takeprofit_witness :
    MAStrategy_next ⟨10, 30, some (15/1000), some (6/1000), 0⟩
      ⟨false, true, some 100⟩ ⟨100, 102, 99, 101⟩ 0
      = OrderAction.close 0 ExitReason.stopLoss
    ∧ OversoldBounce_next ⟨14, 28, 55, 50, 15/1000, 6/1000, 0⟩
      ⟨false, true, some 100⟩ ⟨100, 102, 99, 101⟩ 40 98 90
      = OrderAction.close 0 ExitReason.stopLoss
    ∧ OversoldBounceMTF_next ⟨14, 28, 55, 50, 15/1000, 6/1000⟩
      ⟨false, true, some 100⟩ ⟨100, 102, 99, 101⟩ ⟨100, 101, 100, 100⟩ 40 98 90 100
      = OrderAction.close 0 ExitReason.stopLoss :=
  ⟨(C1_stoploss_checked_before_takeprofit ⟨false, true, some 100⟩
      ⟨100, 102, 99, 101⟩ ⟨100, 101, 100, 100⟩ 100 (15/1000) (6/1000) 0 40 98 90 100
      rfl rfl rfl (by norm_num) (by norm_num)).1
      ⟨10, 30, some (15/1000), some (6/1000), 0⟩ rfl rfl,
   (C1_stoploss_checked_before_takeprofit ⟨false, true, some 100⟩
      ⟨100, 102, 99, 101⟩ ⟨100, 101, 100, 100⟩ 100 (15/1000) (6/1000) 0 40 98 90 100
      rfl rfl rfl (by norm_num) (by norm_num)).2.1
      ⟨14, 28, 55, 50, 15/1000, 6/1000, 0⟩ rfl rfl,
   (C1_stoploss_checked_before_takeprofit ⟨false, true, some 100⟩
      ⟨100, 102, 99, 101⟩ ⟨100, 101, 100, 100⟩ 100 (15/1000) (6/1000) 0 40 98 90 100
      rfl rfl rfl (by norm_num) (by norm_num)).2.2
      ⟨14, 28, 55, 50, 15/1000, 6/1000⟩ rfl rfl⟩

/-- C6: in OversoldBounceMTFStrategy the entry condition is evaluated
exclusively on the coarser signal series `datas[1]` (only its close and
the indicators built on it matter — the granular bar is irrelevant when
flat), the stop-loss and take-profit exit checks read the high and low
of the granular series `datas[0]` (the signal bar is irrelevant while in
a position), and orders are placed against the granular series
(data index 0). -/
theorem C6_mtf_signals_on_signal_series_exits_on_granular (p : MTFParams) :
    (∀ (st : StratState) (g g' s s' : Bar) (rsi bbBot trendSma : ℚ) (len1 : ℕ),
        st.position = false → s.close = s'.close →
        OversoldBounceMTF_next p st g s rsi bbBot trendSma len1
          = OversoldBounceMTF_next p st g' s' rsi bbBot trendSma len1)
    ∧ (∀ (st : StratState) (g s : Bar) (rsi bbBot trendSma : ℚ) (len1 : ℕ),
        st.order = false → st.position = false → ¬ len1 < p.trend_ma →
        s.close > trendSma → rsi < p.rsi_oversold → s.close ≤ bbBot →
        OversoldBounceMTF_next p st g s rsi bbBot trendSma len1 = OrderAction.buy 0)
    ∧ (∀ (st : StratState) (g s s' : Bar) (rsi bbBot trendSma : ℚ) (len1 : ℕ),
        st.position = true →
        OversoldBounceMTF_next p st g s rsi bbBot trendSma len1
          = OversoldBounceMTF_next p st g s' rsi bbBot trendSma len1)
    ∧ (∀ (st : StratState) (g s : Bar) (rsi bbBot trendSma entry : ℚ) (len1 : ℕ),
        st.order = false → st.position = true → st.entry_price = some entry →
        g.low ≤ entry * (1 - p.stoploss_pct) →
        OversoldBounceMTF_next p st g s rsi bbBot trendSma len1
          = OrderAction.close 0 ExitReason.stopLoss)
    ∧ (∀ (st : StratState) (g s : Bar) (rsi bbBot trendSma entry : ℚ) (len1 : ℕ),
        st.order = false → st.position = true → st.entry_price = some entry →
        ¬ g.low ≤ entry * (1 - p.stoploss_pct) →
        g.high ≥ entry * (1 + p.takeprofit_pct) →
        OversoldBounceMTF_next p st g s rsi bbBot trendSma len1
          = OrderAction.close 0 ExitReason.takeProfit) := by
  refine ⟨fun st g g' s s' rsi bbBot trendSma len1 hpos hsc => ?_,
          fun st g s rsi bbBot trendSma len1 hord hpos hlen hup hrsi hbb => ?_,
          fun st g s s' rsi bbBot trendSma len1 hpos => ?_,
          fun st g s rsi bbBot trendSma entry len1 hord hpos hentry hsl => ?_,
          fun st g s rsi bbBot trendSma entry len1 hord hpos hentry hnsl htp => ?_⟩
  · simp [OversoldBounceMTF_next, hpos, hsc]
  · simp [OversoldBounceMTF_next, hord, hpos, hlen, hup, hrsi, hbb]
  · simp [OversoldBounceMTF_next, hpos]
  · simp [OversoldBounceMTF_next, hord, hpos, hentry, hsl]
  · simp [OversoldBounceMTF_next, hord, hpos, hentry, hnsl, htp]

/-- Witness for C6: concrete instances of the granular-exit conjuncts
and of the granular-irrelevance of the entry decision. -/
theorem C6_mtf_signals_on_signal_series_exits_on_granular_witness :
    OversoldBounceMTF_next ⟨14, 28, 55, 50, 15/1000, 6/1000⟩
      ⟨false, false, none⟩ ⟨1, 2, 1, 1⟩ ⟨100, 101, 99, 100⟩ 20 100 90 60
      = OversoldBounceMTF_next ⟨14, 28, 55, 50, 15/1000, 6/1000⟩
        ⟨false, false, none⟩ ⟨500, 900, 400, 700⟩ ⟨70, 80, 60, 100⟩ 20 100 90 60
    ∧ OversoldBounceMTF_next ⟨14, 28, 55, 50, 15/1000, 6/1000⟩
      ⟨false, false, none⟩ ⟨1, 2, 1, 1⟩ ⟨100, 101, 99, 100⟩ 20 100 90 60
      = OrderAction.buy 0
    ∧ OversoldBounceMTF_next ⟨14, 28, 55, 50, 15/1000, 6/1000⟩
      ⟨false, true, some 100⟩ ⟨100, 101, 99, 100⟩ ⟨7, 7, 7, 7⟩ 40 98 90 60
      = OrderAction.close 0 ExitReason.stopLoss
    ∧ OversoldBounceMTF_next ⟨14, 28, 55, 50, 15/1000, 6/1000⟩
      ⟨false, true, some 100⟩ ⟨100, 102, 100, 100⟩ ⟨7, 7, 7, 7⟩ 40 98 90 60
      = OrderAction.close 0 ExitReason.takeProfit :=
  ⟨(C6_mtf_signals_on_signal_series_exits_on_granular ⟨14, 28, 55, 50, 15/1000, 6/1000⟩).1
      ⟨false, false, none⟩ ⟨1, 2, 1, 1⟩ ⟨500, 900, 400, 700⟩ ⟨100, 101, 99, 100⟩
      ⟨70, 80, 60, 100⟩ 20 100 90 60 rfl rfl,
   (C6_mtf_signals_on_signal_series_exits_on_granular ⟨14, 28, 55, 50, 15/1000, 6/1000⟩).2.1
      ⟨false, false, none⟩ ⟨1, 2, 1, 1⟩ ⟨100, 101, 99, 100⟩ 20 100 90 60
      rfl rfl (by norm_num) (by norm_num) (by norm_num) (by norm_num),
   (C6_mtf_signals_on_signal_series_exits_on_granular ⟨14, 28, 55, 50, 15/1000, 6/1000⟩).2.2.2.1
      ⟨false, true, some 100⟩ ⟨100, 101, 99, 100⟩ ⟨7, 7, 7, 7⟩ 40 98 90 100 60
      rfl rfl rfl (by norm_num),
   (C6_mtf_signals_on_signal_series_exits_on_granular ⟨14, 28, 55, 50, 15/1000, 6/1000⟩).2.2.2.2
      ⟨false, true, some 100⟩ ⟨100, 102, 100, 100⟩ ⟨7, 7, 7, 7⟩ 40 98 90 100 60
      rfl rfl rfl (by norm_num) (by norm_num)⟩

/-- C2: `_normalize_open_time` maps each numeric value `v` of the
`open_time` column: `v > 10^15` stays unchanged (already microseconds),
`v` in `(10^12, 10^15]` is multiplied by 1 000 (milliseconds to
microseconds), any other numeric `v` by 1 000 000 (seconds to
microseconds); hence the three encodings of one epoch instant `t`
(seconds `t`, milliseconds `1000·t`, microseconds `10^6·t`) all
normalise to the same microsecond value `10^6·t`, for any epoch second
count `t` in `(10^9, 10^12]`. -/
theorem C2_normalize_open_time_per_value (v t : ℚ) :
    (10 ^ 15 < v → _normalize_open_time_val (some v) = some v)
    ∧ (10 ^ 12 < v → v ≤ 10 ^ 15 →
        _normalize_open_time_val (some v) = some (v * 1000))
    ∧ (v ≤ 10 ^ 12 → _normalize_open_time_val (some v) = some (v * 1000000))
    ∧ (10 ^ 9 < t → t ≤ 10 ^ 12 →
        _normalize_open_time_val (some t) = some (t * 1000000)
        ∧ _normalize_open_time_val (some (t * 1000)) = some (t * 1000000)
        ∧ _normalize_open_time_val (some (t * 1000000)) = some (t * 1000000)) := by
  refine ⟨fun h => ?_, fun h1 h2 => ?_, fun h => ?_, fun h1 h2 => ⟨?_, ?_, ?_⟩⟩
  · simp [_normalize_open_time_val, ms_mask, us_mask, s_mask, optGt, h]
  · have hn : ¬ (10 : ℚ) ^ 15 < v := not_lt.mpr h2
    simp [_normalize_open_time_val, ms_mask, us_mask, s_mask, optGt, h1, hn]
  · have hn12 : ¬ (10 : ℚ) ^ 12 < v := not_lt.mpr h
    have hn15 : ¬ (10 : ℚ) ^ 15 < v := by
      refine not_lt.mpr (le_trans h (by norm_num))
    simp [_normalize_open_time_val, ms_mask, us_mask, s_mask, optGt, hn12, hn15]
  · have hn12 : ¬ (10 : ℚ) ^ 12 < t := not_lt.mpr h2
    have hn15 : ¬ (10 : ℚ) ^ 15 < t := by
      refine not_lt.mpr (le_trans h2 (by norm_num))
    simp [_normalize_open_time_val, ms_mask, us_mask, s_mask, optGt, hn12, hn15]
  · have hg12 : (10 : ℚ) ^ 12 < t * 1000 := by nlinarith
    have hn15 : ¬ (10 : ℚ) ^ 15 < t * 1000 := by nlinarith
    have harith : t * 1000 * 1000 = t * 1000000 := by ring
    simp [_normalize_open_time_val, ms_mask, us_mask, s_mask, optGt, hg12, hn15, harith]
  · have hg15 : (10 : ℚ) ^ 15 < t * 1000000 := by nlinarith
    simp [_normalize_open_time_val, ms_mask, us_mask, s_mask, optGt, hg15]

/-- Witness for C2: a microsecond value (2·10^15) is unchanged, a
millisecond value (5·10^13) is scaled by 1 000, a second value
(1 700 000 000) by 1 000 000, and second/millisecond/microsecond
encodings of epoch second 1 700 000 000 agree after normalisation. -/
theorem C2_normalize_open_time_per_value_witness :
    _normalize_open_time_val (some (2 * 10 ^ 15)) = some (2 * 10 ^ 15)
    ∧ _normalize_open_time_val (some (5 * 10 ^ 13)) = some (5 * 10 ^ 13 * 1000)
    ∧ _normalize_open_time_val (some 1700000000) = some (1700000000 * 1000000)
    ∧ _normalize_open_time_val (some (1700000000 * 1000))
        = some (1700000000 * 1000000)
    ∧ _normalize_open_time_val (some (1700000000 * 1000000))
        = some (1700000000 * 1000000) :=
  ⟨(C2_normalize_open_time_per_value (2 * 10 ^ 15) 0).1 (by norm_num),
   (C2_normalize_open_time_per_value (5 * 10 ^ 13) 0).2.1 (by norm_num) (by norm_num),
   ((C2_normalize_open_time_per_value 0 1700000000).2.2.2 (by norm_num) (by norm_num)).1,
   ((C2_normalize_open_time_per_value 0 1700000000).2.2.2 (by norm_num) (by norm_num)).2.1,
   ((C2_normalize_open_time_per_value 0 1700000000).2.2.2 (by norm_num) (by norm_num)).2.2⟩

/-- C3 (failing input): `load` drops duplicates and sorts on the RAW
`open_time` column (collector.py lines 126-127) and only afterwards
normalises it to microseconds (line 137).  With two cached files of
mixed units — one millisecond value `1.7·10^12` (epoch 2023-11-14) and
one microsecond value `1.6·10^15` (epoch 2020-09-13) — the returned
column is `[1.7·10^15, 1.6·10^15]` μs: not increasing.  And a second
pair encoding the SAME instant in seconds (`1.7·10^9`) and milliseconds
(`1.7·10^12`) both survive the raw-valued dedup and normalise to the
duplicate value `1.7·10^15` μs.  Both outcomes contradict the claimed
normalize-then-dedup-and-sort behaviour and the strictly-increasing
`open_time` invariant. -/
theorem C3_load_mixed_units_not_sorted_nor_deduped :
    (load_open_time [[1700000000000], [1600000000000000]]
        = [some 1700000000000000, some 1600000000000000]
      ∧ ¬ ((1700000000000000 : ℚ) < 1600000000000000))
    ∧ load_open_time [[1700000000], [1700000000000]]
        = [some 1700000000000000, some 1700000000000000] := by
  refine ⟨⟨?_, by norm_num⟩, ?_⟩ <;>
    norm_num [load_open_time, drop_duplicates, dedupSeen, sort_values,
      List.insertionSort, List.orderedInsert, _normalize_open_time,
      _normalize_open_time_val, ms_mask, us_mask, s_mask, optGt]

/-- C8 (counterexample): with the unsupported signal label "7m" and no
granular timeframe, `main` executes the collect step (per-day fetch
attempts) and the cached-data load step before the first `_parse_tf`
call ever checks the label — the run does not fail fast before data
access, refuting the claim as stated. -/
theorem C8_counterexample_data_access_before_check :
    ¬ failsFastOnUnknownTf "7m" none := by
  intro h
  have := h (by decide)
  simp [executed_steps, main_steps, run_prefix, step_fails, parse_tf_ok,
    TF_MAP_keys, isDataAccess] at this

/-- C8 (amended): an unsupported signal interval label is rejected with
the `Unknown timeframe` diagnostic by `_parse_tf`, but only at that
function's first call, which `main` reaches after the collect step and
the load of cached files (for the granular interval in MTF mode, for the
signal interval otherwise): the executed step trace is collect, load,
then the failing interval check — a data access precedes the check. -/
theorem C8_unknown_tf_rejected_after_data_access
    (signal_tf : String) (granular_tf : Option String)
    (h : parse_tf_ok signal_tf = false) :
    ∃ interval,
      executed_steps signal_tf granular_tf
        = [MainStep.collectStep interval, MainStep.loadStep interval,
           MainStep.parseTfStep signal_tf]
      ∧ isDataAccess (MainStep.collectStep interval) = true
      ∧ step_fails (MainStep.parseTfStep signal_tf) = true := by
  cases granular_tf with
  | none =>
    exact ⟨signal_tf,
      by simp [executed_steps, main_steps, run_prefix, step_fails, h],
      rfl, by simp [step_fails, h]⟩
  | some g =>
    exact ⟨g,
      by simp [executed_steps, main_steps, run_prefix, step_fails, h],
      rfl, by simp [step_fails, h]⟩

/-- Witness for the amended C8 at signal label "7m" in both modes. -/
theorem C8_unknown_tf_rejected_after_data_access_witness :
    (∃ interval,
      executed_steps "7m" none
        = [MainStep.collectStep interval, MainStep.loadStep interval,
           MainStep.parseTfStep "7m"]
      ∧ isDataAccess (MainStep.collectStep interval) = true
      ∧ step_fails (MainStep.parseTfStep "7m") = true)
    ∧ (∃ interval,
      executed_steps "7m" (some "1m")
        = [MainStep.collectStep interval, MainStep.loadStep interval,
           MainStep.parseTfStep "7m"]
      ∧ isDataAccess (MainStep.collectStep interval) = true
      ∧ step_fails (MainStep.parseTfStep "7m") = true) :=
  ⟨C8_unknown_tf_rejected_after_data_access "7m" none (by decide),
   C8_unknown_tf_rejected_after_data_access "7m" (some "1m") (by decide)⟩

/-- `collect_loop` on an empty day range. -/
theorem collect_loop_of_not_lt (cached fetchOk : ℕ → Bool) (s e : ℕ)
    (h : ¬ s < e) : collect_loop cached fetchOk s e = [] := by
  rw [collect_loop]
  simp [h]

/-- The days visited by `collect_loop` are exactly the range, whatever
the per-day fetch outcomes. -/
theorem collect_loop_map_fst (cached fetchOk : ℕ → Bool) :
    ∀ (n s : ℕ),
      (collect_loop cached fetchOk s (s + n)).map Prod.fst = List.range' s n := by
  intro n
  induction n with
  | zero =>
    intro s
    rw [collect_loop]
    simp
  | succ k ih =>
    intro s
    rw [collect_loop]
    have hlt : s < s + (k + 1) := by omega
    have heq : s + (k + 1) = (s + 1) + k := by omega
    rw [if_pos hlt, List.map_cons, heq, ih (s + 1), List.range'_succ]

/-- A day whose fetch fails (and is not cached) appears in the loop's
outcomes as a warned-and-skipped day. -/
theorem collect_loop_mem_warned (cached fetchOk : ℕ → Bool) :
    ∀ (n s d : ℕ), s ≤ d → d < s + n → cached d = false → fetchOk d = false →
      (d, DayOutcome.warned) ∈ collect_loop cached fetchOk s (s + n) := by
  intro n
  induction n with
  | zero =>
    intro s d h1 h2
    omega
  | succ k ih =>
    intro s d h1 h2 hc hf
    rw [collect_loop]
    have hlt : s < s + (k + 1) := by omega
    rw [if_pos hlt]
    rcases eq_or_lt_of_le h1 with rfl | hgt
    · simp [hc, hf]
    · have heq : s + (k + 1) = (s + 1) + k := by omega
      rw [heq]
      exact List.mem_cons_of_mem _ (ih (s + 1) d hgt (by omega) hc hf)

/-- C9: for every day of `[start, end)`, whatever the per-day fetch
outcomes, `collect`'s loop visits every day of the range exactly in
order — so a day whose fetch fails is recorded as warned and skipped
while every remaining day is still processed; a single day's failure
never aborts the run. -/
theorem C9_day_failure_never_aborts_collect
    (cached fetchOk : ℕ → Bool) (s e : ℕ) :
    (collect_loop cached fetchOk s e).map Prod.fst = List.range' s (e - s)
    ∧ (∀ d, s ≤ d → d < e → cached d = false → fetchOk d = false →
        (d, DayOutcome.warned) ∈ collect_loop cached fetchOk s e) := by
  constructor
  · by_cases hse : s ≤ e
    · have heq : e = s + (e - s) := by omega
      rw [heq, collect_loop_map_fst]
      congr 1
      omega
    · rw [collect_loop_of_not_lt cached fetchOk s e (by omega)]
      have : e - s = 0 := by omega
      simp [this]
  · intro d h1 h2 hc hf
    have heq : e = s + (e - s) := by omega
    rw [heq]
    exact collect_loop_mem_warned cached fetchOk (e - s) s d h1 (by omega) hc hf

/-- Witness for C9: days 4, 5, 6 with the fetch of day 5 failing — all
three days are visited, and day 5 is warned and skipped. -/
theorem C9_day_failure_never_aborts_collect_witness :
    ((collect_loop (fun _ => false) (fun d => decide (d ≠ 5)) 4 7).map Prod.fst
        = List.range' 4 (7 - 4))
    ∧ (5, DayOutcome.warned)
        ∈ collect_loop (fun _ => false) (fun d => decide (d ≠ 5)) 4 7 :=
  ⟨(C9_day_failure_never_aborts_collect (fun _ => false)
      (fun d => decide (d ≠ 5)) 4 7).1,
   (C9_day_failure_never_aborts_collect (fun _ => false)
      (fun d => decide (d ≠ 5)) 4 7).2 5 (by norm_num) (by norm_num) rfl (by decide)⟩
